import Mathlib

/-!
Verification of the pop_density_OMNI core against its specification.

The development shallowly embeds the two core modules:
* src/generate_safety_margins.py — GRB sizing, parameter clamping, and the
  cumulative buffer distances; buffering is modelled as the idealised metric
  dilation in the projected plane.
* src/population_analysis.py — the data path of the population aggregation
  (cell filtering, statistics, orchestration), over exact rationals, with the
  geometric predicates of the external geopandas/shapely library abstracted
  as oracle parameters.
-/

namespace PopDensity

/-- Point of the metric projected plane (SIRGAS 2000 / UTM 23S for the
buffer generator, Albers for the population grid), modelled as ℝ². -/
abbrev Pt := EuclideanSpace ℝ (Fin 2)

/-! ## Safety margin generator (src/generate_safety_margins.py) -/

/-- Source: generate_safety_margins.py, calculate_grb_size (lines 23-36). -/
noncomputable def calculate_grb_size (height : ℝ) : ℝ :=
  if height ≤ 120 then height else 25 * Real.sqrt (2 * height / 9.81) + 1.485

/-- Effective Contingency Volume size together with the clamp-warning flag.
Source: generate_safety_margins.py lines 90-94. -/
noncomputable def effectiveCv (cv_size : ℝ) : ℝ × Bool :=
  if cv_size < 215 then (215, true) else (cv_size, false)

/-- Effective Ground Risk Buffer size together with the clamp-warning flag.
Source: generate_safety_margins.py lines 79-88. -/
noncomputable def effectiveGrb (grb_size : Option ℝ) (height : ℝ) : ℝ × Bool :=
  match grb_size with
  | none => (calculate_grb_size height, false)
  | some g =>
      if g < calculate_grb_size height then (calculate_grb_size height, true)
      else (g, false)

/-- Effective (post-clamp) buffer parameters. -/
structure EffMargins where
  fg : ℝ
  cv : ℝ
  grb : ℝ

/-- Effective buffer parameters after the polygon check and both clamps.
Source: generate_safety_margins.py lines 70-94. -/
noncomputable def effMargins (has_polygon : Bool) (fg_size height cv_size : ℝ)
    (grb_size : Option ℝ) : EffMargins :=
  { fg := if has_polygon then 0 else fg_size,
    cv := (effectiveCv cv_size).1,
    grb := (effectiveGrb grb_size height).1 }

/-- Outward buffer distance of the Contingency Volume layer.
Source: generate_safety_margins.py line 99. -/
noncomputable def cvBufferDist (e : EffMargins) : ℝ := e.cv + e.fg

/-- Outward buffer distance of the Ground Risk Buffer layer.
Source: generate_safety_margins.py line 100. -/
noncomputable def grbBufferDist (e : EffMargins) : ℝ := e.grb + e.cv + e.fg

/-- Idealised outward buffer in the metric plane: every point within
distance d of the geometry (the semantics of shapely geometry.buffer). -/
def buffer (G : Set Pt) (d : ℝ) : Set Pt :=
  {p | ∃ q ∈ G, dist p q ≤ d}

/-- Geometry of one generated layer: the source applies the buffer only when
the distance is positive, otherwise the layer is a copy of the input.
Source: generate_safety_margins.py lines 104-113. -/
noncomputable def layerGeom (G : Set Pt) (d : ℝ) : Set Pt :=
  if 0 < d then buffer G d else G

/-- Shapely cap-style constant: round end cap. -/
def capRound : Nat := 1

/-- Shapely cap-style constant: flat (flush at the endpoint) end cap. -/
def capFlat : Nat := 2

/-- Shapely cap-style constant: square end cap (flush sides extended past
the endpoint by the buffer distance). -/
def capSquare : Nat := 3

/-- Shapely join-style constant: round join. -/
def joinRound : Nat := 1

/-- Shapely join-style constant: mitre (sharp) join. -/
def joinMitre : Nat := 2

/-- Join style selected from corner_style.
Source: generate_safety_margins.py line 77. -/
def join_style (corner_style : String) : Nat :=
  if corner_style = "square" then 2 else 1

/-- Cap style passed for each layer of the buffer loop.
Source: generate_safety_margins.py line 108. -/
def cap_style (name : String) (has_polygon : Bool) : Nat :=
  if name = "Flight Geography" ∧ has_polygon = false then 3 else 1

/-- Join style each buffer call actually receives: the three loop layers
receive the corner_style selection (line 112); the Adjacent Area buffer
passes the literal 1 (generate_safety_margins.py line 121). -/
def bufferJoinStyle (corner_style : String) (name : String) : Nat :=
  if name = "Adjacent Area" then 1 else join_style corner_style

/-- Cap style of the Adjacent Area buffer call: the call on line 121 passes
no cap_style, so shapely's default round cap applies. -/
def adjCapStyle : Nat := 1

/-! ## Population aggregation (src/population_analysis.py), data path -/

/-- Population grid cell: census population count (column TOTAL) and the
area of its geometry in the metric Albers projection, in m². -/
structure Cell where
  total : ℚ
  area_m2 : ℚ
deriving DecidableEq, Repr

/-- Statistics record returned by processar_todas_grades.
Source: population_analysis.py lines 357-361. -/
structure AnalysisStats where
  total_pessoas : ℚ
  area_total_km2 : ℚ
  densidade_media : ℚ
deriving DecidableEq, Repr

/-- Returned dictionary of processar_todas_grades, key for key.
Source: population_analysis.py lines 357-361. -/
def statsDict (s : AnalysisStats) : List (String × ℚ) :=
  [("total_pessoas", s.total_pessoas),
   ("area_total_km2", s.area_total_km2),
   ("densidade_media", s.densidade_media)]

/-- Source: population_analysis.py, calcular_estatisticas (lines 161-170).
Returns (total population, area in km², mean density). -/
def calcular_estatisticas (dados_intersec : List Cell) : ℚ × ℚ × ℚ :=
  if dados_intersec.isEmpty then (0, 0, 0)
  else
    let total_pessoas := (dados_intersec.map Cell.total).sum
    let area_total_km2 := (dados_intersec.map Cell.area_m2).sum / 1000000
    let densidade_media :=
      if 0 < area_total_km2 then total_pessoas / area_total_km2 else 0
    (total_pessoas, area_total_km2, densidade_media)

/-- External geometric and I/O collaborators of the aggregation, abstracted:
identificar_grades_relevantes, carregar_grid_ibge, the geopandas spatial
index and exact intersection predicates, and the metric polygon area. -/
structure GeoOracle where
  grades : Set Pt → List Nat
  load : Nat → Option (List Cell)
  bboxHit : Set Pt → Cell → Bool
  intersects : Set Pt → Cell → Bool
  polyAreaKm2 : Set Pt → ℚ

/-- Cells of one grid retained for the query area: spatial-index prefilter,
then the exact intersection filter; none when the grid fails to load, has
no index hits, or retains no cells.
Source: population_analysis.py lines 198-218. -/
def retainCells (o : GeoOracle) (area : Set Pt) (grade_id : Nat) :
    Option (List Cell) :=
  match o.load grade_id with
  | none => none
  | some grid =>
      let possible := grid.filter (o.bboxHit area)
      if possible.isEmpty then none
      else
        let retained := possible.filter (o.intersects area)
        if retained.isEmpty then none else some retained

/-- Source: population_analysis.py, processar_todas_grades (lines 173-361),
restricted to its data path (plot rendering omitted). -/
def processar_todas_grades (o : GeoOracle) (area : Set Pt)
    (use_polygon_area : Bool) : Option AnalysisStats :=
  let grades_relevantes := o.grades area
  if grades_relevantes.isEmpty then none
  else
    let todos_dados := grades_relevantes.filterMap (retainCells o area)
    if todos_dados.isEmpty then none
    else
      let dados_combinados := todos_dados.flatten
      let stats := calcular_estatisticas dados_combinados
      let densidade_media :=
        if use_polygon_area then
          if 0 < o.polyAreaKm2 area then stats.1 / o.polyAreaKm2 area else 0
        else stats.2.2
      some ⟨stats.1, stats.2.1, densidade_media⟩

/-- Results-dictionary entry for one layer: present exactly when the
aggregation succeeded (the orchestrator's if-stats guards). -/
def optEntry (name : String) : Option AnalysisStats →
    List (String × AnalysisStats)
  | some s => [(name, s)]
  | none => []

/-- Source: population_analysis.py, analyze_population (lines 364-438),
restricted to its data path.  A dictionary KeyError is modelled as
Except.error; the early return on an empty extraction as ok none. -/
def analyze_population (o : GeoOracle) (layers : List (String × Set Pt)) :
    Except String (Option (List (String × AnalysisStats))) :=
  if layers.isEmpty then Except.ok none
  else
    match layers.lookup "Flight Geography" with
    | none => Except.error "KeyError: Flight Geography"
    | some fg_geom =>
        let r1 := optEntry "Flight Geography"
          (processar_todas_grades o fg_geom false)
        match layers.lookup "Ground Risk Buffer" with
        | none => Except.error "KeyError: Ground Risk Buffer"
        | some grb_geom =>
            let r2 := r1 ++ optEntry "Ground Risk Buffer"
              (processar_todas_grades o grb_geom false)
            let r3 :=
              match layers.lookup "Adjacent Area" with
              | some aa_geom =>
                  let area_anel := aa_geom \ grb_geom
                  r2 ++ optEntry "Adjacent Area"
                    (processar_todas_grades o area_anel true)
              | none => r2
            Except.ok (some r3)

/-! ## Concrete instances used by witnesses and counterexamples -/

/-- Oracle with one grid of one cell (100 people, 1 km²) and a query
polygon of true area 2 km². -/
def oracleRing : GeoOracle :=
  { grades := fun _ => [1],
    load := fun _ => some [⟨100, 1000000⟩],
    bboxHit := fun _ _ => true,
    intersects := fun _ _ => true,
    polyAreaKm2 := fun _ => 2 }

/-- Oracle with one grid of one cell (100 people, 2 km²). -/
def oracleCellSum : GeoOracle :=
  { grades := fun _ => [1],
    load := fun _ => some [⟨100, 2000000⟩],
    bboxHit := fun _ _ => true,
    intersects := fun _ _ => true,
    polyAreaKm2 := fun _ => 1 }

/-- Oracle whose quadrant index intersects no quadrant. -/
def oracleNone : GeoOracle :=
  { grades := fun _ => [],
    load := fun _ => none,
    bboxHit := fun _ _ => false,
    intersects := fun _ _ => false,
    polyAreaKm2 := fun _ => 0 }

/-- Oracle whose exact intersection test retains no cell. -/
def oracleMiss : GeoOracle :=
  { grades := fun _ => [1],
    load := fun _ => some [⟨7, 1⟩],
    bboxHit := fun _ _ => true,
    intersects := fun _ _ => false,
    polyAreaKm2 := fun _ => 1 }

/-- Oracle reporting a degenerate query polygon of zero metric area. -/
def oracleZeroArea : GeoOracle :=
  { grades := fun _ => [1],
    load := fun _ => some [⟨5, 1000000⟩],
    bboxHit := fun _ _ => true,
    intersects := fun _ _ => true,
    polyAreaKm2 := fun _ => 0 }

/-- Layer dictionary of a complete safety-margins KML, with placeholder
geometries. -/
def layersAll : List (String × Set Pt) :=
  [("Flight Geography", (∅ : Set Pt)),
   ("Contingency Volume", (∅ : Set Pt)),
   ("Ground Risk Buffer", (∅ : Set Pt)),
   ("Adjacent Area", (Set.univ : Set Pt))]

/-! ## Helper lemmas -/

/-- The GRB sizing rule produces a nonnegative distance. -/
theorem calculate_grb_size_nonneg {h : ℝ} (hh : 0 ≤ h) :
    0 ≤ calculate_grb_size h := by
  unfold calculate_grb_size
  split_ifs with h120
  · exact hh
  · positivity

/-- The effective CV distance is at least the 215 m floor. -/
theorem effectiveCv_fst_ge (cv : ℝ) : 215 ≤ (effectiveCv cv).1 := by
  unfold effectiveCv
  split_ifs with h1
  · simp
  · simpa using not_lt.mp h1

/-- The effective GRB distance is nonnegative for a nonnegative height. -/
theorem effectiveGrb_fst_nonneg (g : Option ℝ) {h : ℝ} (hh : 0 ≤ h) :
    0 ≤ (effectiveGrb g h).1 := by
  unfold effectiveGrb
  cases g with
  | none => exact calculate_grb_size_nonneg hh
  | some x =>
      dsimp only
      split_ifs with hx
      · exact calculate_grb_size_nonneg hh
      · simpa using (calculate_grb_size_nonneg hh).trans (not_lt.mp hx)

/-- A geometry is contained in its buffer by a nonnegative distance. -/
theorem subset_buffer {G : Set Pt} {d : ℝ} (hd : 0 ≤ d) : G ⊆ buffer G d := by
  intro p hp
  exact ⟨p, hp, by simpa [dist_self] using hd⟩

/-- Buffers grow monotonically with the distance. -/
theorem buffer_mono {G : Set Pt} {d1 d2 : ℝ} (h : d1 ≤ d2) :
    buffer G d1 ⊆ buffer G d2 := by
  rintro p ⟨q, hq, hdist⟩
  exact ⟨q, hq, hdist.trans h⟩

/-- Layer geometries are nested along nondecreasing nonnegative distances. -/
theorem layerGeom_mono {G : Set Pt} {d1 d2 : ℝ} (h1 : 0 ≤ d1) (h12 : d1 ≤ d2)
    (h2 : 0 < d2) : layerGeom G d1 ⊆ layerGeom G d2 := by
  unfold layerGeom
  rw [if_pos h2]
  split_ifs with hd1
  · exact buffer_mono h12
  · exact subset_buffer h2.le

/-- Under the three layer lookups the orchestrator returns exactly the
entries of the layers whose aggregation succeeded, the Adjacent Area stage
running on the difference ring. -/
theorem analyze_population_decomp (o : GeoOracle)
    (layers : List (String × Set Pt)) (fg grb aa : Set Pt)
    (hne : layers.isEmpty = false)
    (hfg : layers.lookup "Flight Geography" = some fg)
    (hgrb : layers.lookup "Ground Risk Buffer" = some grb)
    (haa : layers.lookup "Adjacent Area" = some aa) :
    analyze_population o layers = Except.ok (some
      (optEntry "Flight Geography" (processar_todas_grades o fg false) ++
       optEntry "Ground Risk Buffer" (processar_todas_grades o grb false) ++
       optEntry "Adjacent Area" (processar_todas_grades o (aa \ grb) true))) := by
  unfold analyze_population
  rw [hne, hfg, hgrb, haa]
  simp

/-- Bounds on the formula branch of the GRB sizing rule at height 200. -/
theorem grb200_bounds :
    161.12 < calculate_grb_size 200 ∧ calculate_grb_size 200 < 161.13 := by
  have hup : Real.sqrt (2 * 200 / 9.81) < 6.3856 := by
    rw [Real.sqrt_lt' (by norm_num : (0:ℝ) < 6.3856)]
    norm_num
  have hlo : (6.3854:ℝ) < Real.sqrt (2 * 200 / 9.81) := by
    rw [Real.lt_sqrt (by norm_num : (0:ℝ) ≤ 6.3854)]
    norm_num
  have h200 : ¬ ((200:ℝ) ≤ 120) := by norm_num
  unfold calculate_grb_size
  rw [if_neg h200]
  constructor <;> nlinarith [hup, hlo]

/-! ## Claims -/

/-- C1: with the effective post-clamp parameters, the CV layer buffers the
input by cv + fg and the GRB layer by grb + cv + fg, and for every input
geometry and valid flight parameters the layers are nested FG ⊆ CV ⊆ GRB
in the metric projection. -/
theorem c1_layers_nested (G : Set Pt) (has_polygon : Bool)
    (fg_size height cv_size : ℝ) (grb_size : Option ℝ)
    (hfg : 0 ≤ fg_size) (hh : 0 ≤ height) :
    layerGeom G (effMargins has_polygon fg_size height cv_size grb_size).fg ⊆
      layerGeom G
        (cvBufferDist (effMargins has_polygon fg_size height cv_size grb_size)) ∧
    layerGeom G
        (cvBufferDist (effMargins has_polygon fg_size height cv_size grb_size)) ⊆
      layerGeom G
        (grbBufferDist (effMargins has_polygon fg_size height cv_size grb_size)) := by
  have hfg0 : 0 ≤ (effMargins has_polygon fg_size height cv_size grb_size).fg := by
    unfold effMargins
    cases has_polygon <;> simp [hfg]
  have hcv : 215 ≤ (effMargins has_polygon fg_size height cv_size grb_size).cv :=
    effectiveCv_fst_ge cv_size
  have hgrb : 0 ≤ (effMargins has_polygon fg_size height cv_size grb_size).grb :=
    effectiveGrb_fst_nonneg grb_size hh
  unfold cvBufferDist grbBufferDist
  constructor
  · exact layerGeom_mono hfg0 (by linarith) (by linarith)
  · exact layerGeom_mono (by linarith) (by linarith) (by linarith)

/-- Witness for C1 at a point-source parameter set (fg 50, height 100,
cv 215, derived grb). -/
theorem c1_layers_nested_witness :
    (0:ℝ) ≤ 50 ∧ (0:ℝ) ≤ 100 ∧
    (layerGeom (∅ : Set Pt) (effMargins false 50 100 215 none).fg ⊆
       layerGeom ∅ (cvBufferDist (effMargins false 50 100 215 none)) ∧
     layerGeom (∅ : Set Pt) (cvBufferDist (effMargins false 50 100 215 none)) ⊆
       layerGeom ∅ (grbBufferDist (effMargins false 50 100 215 none))) :=
  ⟨by norm_num, by norm_num,
   c1_layers_nested ∅ false 50 100 215 none (by norm_num) (by norm_num)⟩

/-- C2: for every height ≥ 0, calculate_grb_size returns the height itself
up to 120 m and the ballistic formula 25·√(2·height/9.81) + 1.485 above. -/
theorem c2_grb_sizing (height : ℝ) (hh : 0 ≤ height) :
    (height ≤ 120 → calculate_grb_size height = height) ∧
    (120 < height →
      calculate_grb_size height = 25 * Real.sqrt (2 * height / 9.81) + 1.485) := by
  constructor
  · intro h1
    simp [calculate_grb_size, h1]
  · intro h1
    simp [calculate_grb_size, not_le.mpr h1]

/-- Witness for C2 at height 100. -/
theorem c2_grb_sizing_witness : (0:ℝ) ≤ 100 ∧ calculate_grb_size 100 = 100 :=
  ⟨by norm_num, (c2_grb_sizing 100 (by norm_num)).1 (by norm_num)⟩

/-- C3: a cv_size below 215 is replaced by 215 and an explicit grb_size
below the computed minimum by that minimum — the effective values are the
maxima — with the warning flag set exactly when clamping happened, and
larger inputs used unchanged; the clamp is total, never an error. -/
theorem c3_parameter_clamping (cv g height : ℝ) :
    (effectiveCv cv).1 = max cv 215 ∧
    ((effectiveCv cv).2 = true ↔ cv < 215) ∧
    (effectiveGrb (some g) height).1 = max g (calculate_grb_size height) ∧
    ((effectiveGrb (some g) height).2 = true ↔ g < calculate_grb_size height) := by
  refine ⟨?_, ?_, ?_, ?_⟩
  · unfold effectiveCv
    split_ifs with h1
    · simp [max_eq_right h1.le]
    · simp [max_eq_left (not_lt.mp h1)]
  · unfold effectiveCv
    split_ifs with h1 <;> simp [h1]
  · unfold effectiveGrb
    dsimp only
    split_ifs with h1
    · simp [max_eq_right h1.le]
    · simp [max_eq_left (not_lt.mp h1)]
  · unfold effectiveGrb
    dsimp only
    split_ifs with h1 <;> simp [h1]

/-- C4: the orchestrator computes the Adjacent Area statistics over the
ring AA − GRB, never over the raw AA polygon, and every point of that ring
lies outside the GRB polygon. -/
theorem c4_adjacent_ring (o : GeoOracle) (layers : List (String × Set Pt))
    (fg grb aa : Set Pt) (hne : layers.isEmpty = false)
    (hfg : layers.lookup "Flight Geography" = some fg)
    (hgrb : layers.lookup "Ground Risk Buffer" = some grb)
    (haa : layers.lookup "Adjacent Area" = some aa) :
    analyze_population o layers = Except.ok (some
      (optEntry "Flight Geography" (processar_todas_grades o fg false) ++
       optEntry "Ground Risk Buffer" (processar_todas_grades o grb false) ++
       optEntry "Adjacent Area" (processar_todas_grades o (aa \ grb) true))) ∧
    ∀ p ∈ aa \ grb, p ∉ grb :=
  ⟨analyze_population_decomp o layers fg grb aa hne hfg hgrb haa,
   fun _ hp => hp.2⟩

/-- Witness for C4 on a complete four-layer dictionary. -/
theorem c4_adjacent_ring_witness :
    analyze_population oracleRing layersAll = Except.ok (some
      (optEntry "Flight Geography" (processar_todas_grades oracleRing ∅ false) ++
       optEntry "Ground Risk Buffer" (processar_todas_grades oracleRing ∅ false) ++
       optEntry "Adjacent Area"
         (processar_todas_grades oracleRing ((Set.univ : Set Pt) \ ∅) true))) :=
  (c4_adjacent_ring oracleRing layersAll ∅ ∅ Set.univ rfl rfl rfl rfl).1

/-- C5 counterexample: on the Adjacent Area ring call (use_polygon_area
true) the returned mean density divides by the true polygon area (2 km²)
while the returned area stays the cell-area sum (1 km²): the returned
record is (100, 1, 50) and 50 · 1 ≠ 100. -/
theorem c5_mean_area_product_cex :
    processar_todas_grades oracleRing ∅ true = some ⟨100, 1, 50⟩ ∧
    (AnalysisStats.mk 100 1 50).densidade_media *
        (AnalysisStats.mk 100 1 50).area_total_km2 ≠
      (AnalysisStats.mk 100 1 50).total_pessoas := by
  constructor
  · norm_num [processar_todas_grades, retainCells, oracleRing,
      calcular_estatisticas, List.filterMap_cons, List.filterMap_nil,
      List.filter_cons, List.filter_nil]
  · norm_num

/-- C5 amended: the identity mean_density · area_km2 = total_population
holds for every record returned with use_polygon_area false (the cell-area
branch used for FG and GRB) whose returned area is positive; in the
use_polygon_area branch (the Adjacent Area ring) the returned density
divides by the true polygon area while the returned area is still the
cell-area sum, so the identity fails there in general. -/
theorem c5_mean_area_product (o : GeoOracle) (area : Set Pt)
    (s : AnalysisStats)
    (hs : processar_todas_grades o area false = some s)
    (hpos : 0 < s.area_total_km2) :
    s.densidade_media * s.area_total_km2 = s.total_pessoas := by
  by_cases h1 : (o.grades area).isEmpty
  · simp [processar_todas_grades, h1] at hs
  by_cases h2 : ((o.grades area).filterMap (retainCells o area)).isEmpty
  · simp [processar_todas_grades, h1, h2] at hs
  · simp only [processar_todas_grades, h1, h2, Bool.false_eq_true, if_false,
      Option.some.injEq] at hs
    subst hs
    dsimp only at hpos ⊢
    by_cases h3 :
      (((o.grades area).filterMap (retainCells o area)).flatten).isEmpty
    · simp [calcular_estatisticas, h3] at hpos
    · simp only [calcular_estatisticas, h3, Bool.false_eq_true, if_false]
        at hpos ⊢
      rw [if_pos hpos]
      exact div_mul_cancel₀ _ (ne_of_gt hpos)

/-- Witness for C5 amended: one retained cell of 100 people on 2 km². -/
theorem c5_mean_area_product_witness :
    (0:ℚ) < (AnalysisStats.mk 100 2 50).area_total_km2 ∧
    (AnalysisStats.mk 100 2 50).densidade_media *
        (AnalysisStats.mk 100 2 50).area_total_km2 =
      (AnalysisStats.mk 100 2 50).total_pessoas :=
  ⟨by norm_num,
   c5_mean_area_product oracleCellSum ∅ ⟨100, 2, 50⟩
     (by norm_num [processar_todas_grades, retainCells, oracleCellSum,
        calcular_estatisticas, List.filterMap_cons, List.filterMap_nil,
        List.filter_cons, List.filter_nil])
     (by norm_num)⟩

/-- C6: the statistics dictionary returned by processar_todas_grades has
exactly the keys total_pessoas, area_total_km2 and densidade_media; it has
no maximum-density entry and no area_km2 entry, although the caller app.py
reads both densidade_maxima and area_km2 from it (lines 588, 646, 648). -/
theorem c6_no_max_density (s : AnalysisStats) :
    (statsDict s).lookup "densidade_maxima" = none ∧
    (statsDict s).lookup "area_km2" = none ∧
    (statsDict s).map Prod.fst =
      ["total_pessoas", "area_total_km2", "densidade_media"] :=
  ⟨rfl, rfl, rfl⟩

/-- C7: an empty quadrant selection or zero retained cells make the
aggregation return the no-data signal none (a value, not an exception);
the orchestrator records an entry only for successful layers and still
returns the successful ones when a layer fails. -/
theorem c7_no_data_skip :
    (∀ (o : GeoOracle) (area : Set Pt) (upa : Bool),
        o.grades area = [] → processar_todas_grades o area upa = none) ∧
    (∀ (o : GeoOracle) (area : Set Pt) (g : Nat) (grid : List Cell),
        o.load g = some grid →
        (grid.filter (o.bboxHit area)).filter (o.intersects area) = [] →
        retainCells o area g = none) ∧
    (∀ s : AnalysisStats,
        optEntry "Flight Geography" none = ([] : List (String × AnalysisStats)) ∧
        optEntry "Flight Geography" (some s) = [("Flight Geography", s)]) ∧
    (∀ (o : GeoOracle) (layers : List (String × Set Pt)) (fg grb aa : Set Pt),
        layers.isEmpty = false →
        layers.lookup "Flight Geography" = some fg →
        layers.lookup "Ground Risk Buffer" = some grb →
        layers.lookup "Adjacent Area" = some aa →
        analyze_population o layers = Except.ok (some
          (optEntry "Flight Geography" (processar_todas_grades o fg false) ++
           optEntry "Ground Risk Buffer" (processar_todas_grades o grb false) ++
           optEntry "Adjacent Area"
             (processar_todas_grades o (aa \ grb) true)))) := by
  refine ⟨?_, ?_, ?_, ?_⟩
  · intro o area upa h
    simp [processar_todas_grades, h]
  · intro o area g grid hload hempty
    simp [retainCells, hload, hempty]
  · intro s
    exact ⟨rfl, rfl⟩
  · intro o layers fg grb aa hne hfg hgrb haa
    exact analyze_population_decomp o layers fg grb aa hne hfg hgrb haa

/-- Witness for C7: a polygon outside the grid domain, a grid whose exact
intersection retains nothing, and a run over the full layer dictionary. -/
theorem c7_no_data_skip_witness :
    processar_todas_grades oracleNone ∅ false = none ∧
    retainCells oracleMiss ∅ 1 = none ∧
    optEntry "Flight Geography" none = ([] : List (String × AnalysisStats)) ∧
    analyze_population oracleRing layersAll = Except.ok (some
      (optEntry "Flight Geography" (processar_todas_grades oracleRing ∅ false) ++
       optEntry "Ground Risk Buffer" (processar_todas_grades oracleRing ∅ false) ++
       optEntry "Adjacent Area"
         (processar_todas_grades oracleRing ((Set.univ : Set Pt) \ ∅) true))) :=
  ⟨c7_no_data_skip.1 oracleNone ∅ false rfl,
   c7_no_data_skip.2.1 oracleMiss ∅ 1 [⟨7, 1⟩] rfl rfl,
   (c7_no_data_skip.2.2.1 ⟨0, 0, 0⟩).1,
   c7_no_data_skip.2.2.2 oracleRing layersAll ∅ ∅ Set.univ rfl rfl rfl rfl⟩

/-- C8 counterexample: with corner_style square, the Adjacent Area buffer
still receives the round join (the source hardcodes join_style 1 on line
121), and the Flight Geography point-source cap is the shapely square cap
(3), not the flat cap (2). -/
theorem c8_corner_style_cex :
    bufferJoinStyle "square" "Adjacent Area" ≠ join_style "square" ∧
    cap_style "Flight Geography" false ≠ capFlat := by
  constructor <;> decide

/-- C8 amended: corner_style selects the join (mitre when square, round
otherwise) for the Flight Geography, Contingency Volume and Ground Risk
Buffer buffers; the Adjacent Area buffer always uses the round join and
the default round cap; the Flight Geography buffer around a point source
uses the square cap style, every other loop layer the round cap. -/
theorem c8_corner_style (cs name : String) (hp : Bool) :
    bufferJoinStyle cs "Flight Geography" = join_style cs ∧
    bufferJoinStyle cs "Contingency Volume" = join_style cs ∧
    bufferJoinStyle cs "Ground Risk Buffer" = join_style cs ∧
    bufferJoinStyle cs "Adjacent Area" = joinRound ∧
    adjCapStyle = capRound ∧
    (join_style cs = joinMitre ↔ cs = "square") ∧
    (cap_style name hp = capSquare ↔ (name = "Flight Geography" ∧ hp = false)) ∧
    (cap_style name hp = capRound ↔ ¬(name = "Flight Geography" ∧ hp = false)) := by
  refine ⟨by simp [bufferJoinStyle], by simp [bufferJoinStyle],
    by simp [bufferJoinStyle], by simp [bufferJoinStyle, joinRound], rfl,
    ?_, ?_, ?_⟩
  · unfold join_style joinMitre
    split_ifs with h1 <;> simp [h1]
  · unfold cap_style capSquare
    split_ifs with h1 <;> simp [h1]
  · unfold cap_style capRound
    split_ifs with h1 <;> simp [h1]

/-- C9 counterexample: calculate_grb_size 200 lies strictly between 161.12
and 161.13 (about 161.123), hence is not within 0.01 of 161.14. -/
theorem c9_grb_examples_cex : ¬ |calculate_grb_size 200 - 161.14| ≤ 0.01 := by
  have hb := grb200_bounds
  have habs : |calculate_grb_size 200 - 161.14| =
      161.14 - calculate_grb_size 200 := by
    rw [abs_of_neg (by linarith [hb.2]), neg_sub]
  rw [habs]
  intro hle
  linarith [hb.2]

/-- C9 amended: calculate_grb_size 100 equals exactly 100, and
calculate_grb_size 200 is within 0.02 of 161.14 (it lies in the open
interval between 161.12 and 161.13). -/
theorem c9_grb_examples :
    calculate_grb_size 100 = 100 ∧
    |calculate_grb_size 200 - 161.14| ≤ 0.02 := by
  have hb := grb200_bounds
  refine ⟨by norm_num [calculate_grb_size], ?_⟩
  rw [abs_le]
  constructor <;> linarith [hb.1, hb.2]

/-- C10: statistics are total on the empty case — calcular_estatisticas of
the empty cell list is (0, 0, 0) — and a non-positive divisor area (the
cell-area sum, or the true polygon area in the use_polygon_area branch)
yields mean density 0 instead of a division error. -/
theorem c10_zero_area_safe :
    calcular_estatisticas [] = (0, 0, 0) ∧
    (∀ cells : List Cell, ¬ 0 < (calcular_estatisticas cells).2.1 →
      (calcular_estatisticas cells).2.2 = 0) ∧
    (∀ (o : GeoOracle) (area : Set Pt) (s : AnalysisStats),
      ¬ 0 < o.polyAreaKm2 area →
      processar_todas_grades o area true = some s →
      s.densidade_media = 0) := by
  refine ⟨rfl, ?_, ?_⟩
  · intro cells hcells
    by_cases h3 : cells.isEmpty
    · simp [calcular_estatisticas, h3]
    · simp only [calcular_estatisticas, h3, Bool.false_eq_true, if_false]
        at hcells ⊢
      rw [if_neg hcells]
  · intro o area s hpa hs
    by_cases h1 : (o.grades area).isEmpty
    · simp [processar_todas_grades, h1] at hs
    by_cases h2 : ((o.grades area).filterMap (retainCells o area)).isEmpty
    · simp [processar_todas_grades, h1, h2] at hs
    · simp only [processar_todas_grades, h1, h2, Bool.false_eq_true, if_false,
        if_true, Option.some.injEq] at hs
      rw [if_neg hpa] at hs
      subst hs
      rfl

/-- Witness for C10: a zero-area cell and a degenerate zero-area query
polygon. -/
theorem c10_zero_area_safe_witness :
    (calcular_estatisticas [Cell.mk 5 0]).2.2 = 0 ∧
    (AnalysisStats.mk 5 1 0).densidade_media = 0 :=
  ⟨c10_zero_area_safe.2.1 [⟨5, 0⟩] (by norm_num [calcular_estatisticas]),
   c10_zero_area_safe.2.2 oracleZeroArea ∅ ⟨5, 1, 0⟩
     (by norm_num [oracleZeroArea])
     (by norm_num [processar_todas_grades, retainCells, oracleZeroArea,
        calcular_estatisticas, List.filterMap_cons, List.filterMap_nil,
        List.filter_cons, List.filter_nil])⟩

end PopDensity
